import Mathlib

/-!
Shallow embedding of the hierarchical filesystem watching engine
(`FileSystemWatcher` / `WatchedLocation`) and verification of its
specification claims.

The engine is embedded as pure functions over explicit state records:
filesystem answers (stat results, directory listings) are passed in as
parameters, mutation becomes state transformation, and every event
published on a hub is returned as part of the function's result.
-/

namespace FSWatch

/-- Stat snapshot, mirroring the fields of a node `FS.Stats` record that the
watcher consults (`isFile()`, `isDirectory()`, `birthtimeMs`, `mtimeMs`,
`size`). `isFile` and `isDirectory` are independent flags because node stats
also describe kinds that are neither (sockets, devices, FIFOs). -/
structure Stats where
  isFile : Bool
  isDirectory : Bool
  birthtimeMs : Nat
  mtimeMs : Nat
  size : Nat
deriving DecidableEq, Repr

/-- An error thrown by the OS layer, identified by its `code` string
(for example `ENOENT`). -/
structure OsError where
  code : String
deriving DecidableEq, Repr

/-- Outcome of a raw `FS.statSync(path)` call: a stats record, or a thrown
OS error. -/
abbrev RawStat := Except OsError Stats

/-- Embeds `WatchedLocation.getStats`: wraps the raw `statSync` outcome,
turning an `ENOENT` error into `none` ("no stat snapshot") and rethrowing
any other error. -/
def getStats (raw : RawStat) : Except OsError (Option Stats) :=
  match raw with
  | .ok s => .ok (some s)
  | .error e => if e.code = "ENOENT" then .ok none else .error e

/-- Models node `Path.join(a, b)` for the argument shapes that arise in the
watcher: `a` an absolute path with no trailing separator, `b` either a plain
entry name or itself an absolute path. Node joins the two segments with a
separator and then normalizes away the doubled slash that appears when `b`
is absolute, so `join "/p" "n" = "/p/n"` and `join "/p" "/q/r" = "/p/q/r"`. -/
def pathJoin (a b : String) : String :=
  if b.data.head? = some '/' then a ++ b else a ++ "/" ++ b

/-- The event vocabulary of the watcher (`FileSystemWatcher.Event`). -/
inductive Event where
  | add
  | delete
  | change
deriving DecidableEq, Repr

/-- The native watch callback's event classes (`FS.WatchEventType`). -/
inductive WatchEventType where
  | rename
  | change
deriving DecidableEq, Repr

/-- A tuple published on a location's hub:
`(event, path, stats or undefined)`. -/
abbrev HubEvent := Event × String × Option Stats

/-- State of one `WatchedLocation` instance (the stat / listing / handle
portion; the child-forwarding bookkeeping is embedded separately as
`ForwardingState`).

Field correspondence with the source class:
* `path` — the immutable `path` key;
* `stats` — the private stats snapshot, `none` when the path does not exist;
* `watcherOpen` — whether the native `FS.FSWatcher` handle field is set;
* `watchingParent` — the parent-attachment abort controller: `none` when no
  controller was created, `some b` for a controller whose signal has aborted
  iff `b`;
* `shouldWatchParent` — the constructor-computed flag: the location is not
  the user's home directory and its parent path is not the filesystem root;
* `filePaths`, `subdirPaths` — the manual set sources, as ordered lists;
* `entries` — the manual map source from entry name to stats, as an
  association list;
* `selfSubActive` — whether the internal self-subscription is held. -/
structure LocState where
  path : String
  stats : Option Stats
  watcherOpen : Bool
  watchingParent : Option Bool
  shouldWatchParent : Bool
  filePaths : List String
  subdirPaths : List String
  entries : List (String × Stats)
  selfSubActive : Bool
deriving DecidableEq, Repr

namespace LocState

/-- Embeds the getter `get exists () { return this.#stats !== undefined; }`. -/
def existsNow (st : LocState) : Bool := st.stats.isSome

/-- Embeds `get isFile () { return this.#stats?.isFile() === true; }`. -/
def isFile (st : LocState) : Bool :=
  match st.stats with
  | some s => s.isFile
  | none => false

/-- Embeds `get isDirectory () { return this.#stats?.isDirectory() === true; }`. -/
def isDirectory (st : LocState) : Bool :=
  match st.stats with
  | some s => s.isDirectory
  | none => false

/-- Embeds `get dateCreated () { return this.#stats?.birthtimeMs ?? 0; }`. -/
def dateCreated (st : LocState) : Nat :=
  match st.stats with
  | some s => s.birthtimeMs
  | none => 0

/-- Embeds `get dateModified () { return this.#stats?.mtimeMs ?? 0; }`. -/
def dateModified (st : LocState) : Nat :=
  match st.stats with
  | some s => s.mtimeMs
  | none => 0

/-- Embeds `get fileSize () { return this.#stats?.size ?? 0; }`. -/
def fileSize (st : LocState) : Nat :=
  match st.stats with
  | some s => s.size
  | none => 0

end LocState

/-- Modelled from the spec: the reactive set contract (an ordered set of
strings supporting `add`, `delete`, `clear`) — the `SetSource.Manual`
implementation lives outside this repository. `add` is a no-op on an element
already present, otherwise it appends in insertion order. -/
def setAdd (xs : List String) (x : String) : List String :=
  if x ∈ xs then xs else xs ++ [x]

/-- Modelled from the spec: the reactive set contract's `delete`, removing
the element if present. -/
def setRemove (xs : List String) (x : String) : List String :=
  xs.filter (fun y => y ≠ x)

/-- Modelled from the spec: the reactive mapping contract's `set` — the
`MapSource.Manual` implementation lives outside this repository. Replaces
the binding for the key if present, otherwise appends it. -/
def mapSet (m : List (String × Stats)) (k : String) (v : Stats) :
    List (String × Stats) :=
  if (m.map Prod.fst).contains k then
    m.map (fun p => if p.1 = k then (k, v) else p)
  else m ++ [(k, v)]

/-- Modelled from the spec: the reactive mapping contract's `delete`,
removing the binding for the key if present. -/
def mapDelete (m : List (String × Stats)) (k : String) :
    List (String × Stats) :=
  m.filter (fun p => p.1 ≠ k)

/-- Embeds `WatchedLocation.onNativeWatcherEvent`. The raw stat outcome for
the affected child path (what `FS.statSync` would produce at the moment of
the callback) is passed in as `raw`; a thrown non-`ENOENT` stat error
propagates out of the callback. On success the result is the updated
location state together with the list of events published on the location's
hub by this callback (`this.#controller.signal(event, path, stats)`). -/
def onNativeWatcherEvent (st : LocState) (nativeEvent : WatchEventType)
    (filename : Option String) (raw : RawStat) :
    Except OsError (LocState × List HubEvent) :=
  match filename with
  | none => .ok (st, [])
  | some fn =>
    if fn = "" then .ok (st, [])
    else
      let p := pathJoin st.path fn
      match getStats raw with
      | .error e => .error e
      | .ok stats =>
        match nativeEvent with
        | .rename =>
          match stats with
          | some s =>
            let st' : LocState :=
              { st with
                entries := mapSet st.entries fn s
                subdirPaths :=
                  if s.isDirectory then setAdd st.subdirPaths p
                  else st.subdirPaths
                filePaths :=
                  if s.isDirectory then st.filePaths
                  else setAdd st.filePaths p }
            .ok (st', [(Event.add, p, some s)])
          | none =>
            let st' : LocState :=
              { st with
                entries := mapDelete st.entries fn
                filePaths := setRemove st.filePaths p
                subdirPaths := setRemove st.subdirPaths p }
            .ok (st', [(Event.delete, p, none)])
        | .change => .ok (st, [(Event.change, p, stats)])

/-- One entry of a `readdirSync(path, { withFileTypes: true })` listing
(a node `Dirent`): the entry name plus its kind flags. -/
structure DirEntry where
  name : String
  isFile : Bool
  isDirectory : Bool
deriving DecidableEq, Repr

/-- Errors that can terminate a watched location's transition: a propagated
OS error, or one of the two fatal invariant-violation assertions thrown by
the source. -/
inductive WatchError where
  | osError (e : OsError)
  | entriesNotEmptyBug
  | watcherAlreadyOpenBug
deriving DecidableEq, Repr

/-- The loop body of the initial listing snapshot: classify one listing
entry into the file set (`this.filePaths.add(Path.join(this.path, entry.name))`)
or the subdirectory set, ignoring entries of any other kind. `base` is the
location's own path. -/
def classifyEntry (base : String) (acc : LocState) (e : DirEntry) : LocState :=
  if e.isFile then
    { acc with filePaths := setAdd acc.filePaths (pathJoin base e.name) }
  else if e.isDirectory then
    { acc with subdirPaths := setAdd acc.subdirPaths (pathJoin base e.name) }
  else acc

/-- Embeds `WatchedLocation.initializeEntries` (the initial listing
snapshot; the name is shortened here). The directory listing that
`readdirSync` would return is passed in as `listing`. Returns early for a
confirmed file or a non-existent path; throws the fatal bug error when
`filePaths` or `subdirPaths` is already non-empty; otherwise classifies
each listing entry into the file set or the subdirectory set. -/
def initEntries (st : LocState) (listing : List DirEntry) :
    Except WatchError LocState :=
  if st.isFile || !st.existsNow then .ok st
  else if st.filePaths.length > 0 || st.subdirPaths.length > 0 then
    .error .entriesNotEmptyBug
  else
    .ok (listing.foldl (classifyEntry st.path) st)

/-- Embeds `WatchedLocation.initializeWatcher` (the name is shortened
here). Returns without doing anything for a confirmed file; throws the
fatal bug error when the native watch handle is already open; otherwise
opens the handle. -/
def initWatcher (st : LocState) : Except WatchError LocState :=
  if st.isFile then .ok st
  else if st.watcherOpen then .error .watcherAlreadyOpenBug
  else .ok { st with watcherOpen := true }

/-- Embeds `WatchedLocation.online`: refresh the stat snapshot, take the
initial listing snapshot, open the native watch handle (unless a confirmed
file), create the parent attachment's abort controller when the location is
eligible to watch its parent, and hold the internal self-subscription.
The raw stat outcome and the directory listing are passed in as parameters;
the cross-location half of `attachToParentLocation` (registering with the
parent location's demand aggregate) is embedded separately as
`ForwardingState.attachChild`. -/
def online (st : LocState) (raw : RawStat) (listing : List DirEntry) :
    Except WatchError LocState :=
  match getStats raw with
  | .error e => .error (.osError e)
  | .ok stats =>
    let st1 := { st with stats := stats }
    match initEntries st1 listing with
    | .error e => .error e
    | .ok st2 =>
      match initWatcher st2 with
      | .error e => .error e
      | .ok st3 =>
        let st4 :=
          if st3.shouldWatchParent then { st3 with watchingParent := some false }
          else st3
        .ok { st4 with selfSubActive := true }

/-- Looks up a key in an association list, returning the first binding
(the behavior of `Map.prototype.get` on the registry map). -/
def alookup {α : Type} : List (String × α) → String → Option α
  | [], _ => none
  | (k, v) :: rest, p => if k = p then some v else alookup rest p

/-- The registry map of a watcher instance (`FileSystemWatcher.#locations`),
as an association list from path string to an instance token that
distinguishes `WatchedLocation` instances. -/
abbrev Registry := List (String × Nat)

/-- Embeds `WatchedLocation.offline`: close the native watch handle if one
is open, abort the parent attachment's signal if a controller exists,
delete the location's path from the registry map, clear the file and
subdirectory sets, and release the internal self-subscription. The stats
snapshot and the entries mapping are not touched. -/
def offline (reg : Registry) (st : LocState) : Registry × LocState :=
  (reg.filter (fun e => e.1 ≠ st.path),
   { st with
     watcherOpen := false
     watchingParent := st.watchingParent.map (fun _ => true)
     filePaths := []
     subdirPaths := []
     selfSubActive := false })

/-- Embeds `WatchedLocation.forwardEventToChildLocation`: look the event's
path up in the registry map; when a location is registered for it, signal
that location's hub with `(event, Path.join(this.path, path), stats)`.
`parentPath` is the forwarding location's own `path`. The result is the
signal delivered to the found child's hub (instance token plus tuple), or
`none` when no location is registered for the path. -/
def forwardEventToChildLocation (parentPath : String) (reg : Registry)
    (event : Event) (path : String) (stats : Option Stats) :
    Option (Nat × HubEvent) :=
  match alookup reg path with
  | none => none
  | some locId => some (locId, (event, pathJoin parentPath path, stats))

/-- Embeds the forwarding subscription callback installed by
`WatchedLocation.attachChild`:
`(event, path) => this.forwardEventToChildLocation(event, path, this.getStats(path))`.
`rawChild` is the raw stat outcome for `path` at the moment of delivery;
a non-`ENOENT` stat error propagates. -/
def forwardOnSelfEvent (parentPath : String) (reg : Registry)
    (event : Event) (path : String) (rawChild : RawStat) :
    Except OsError (Option (Nat × HubEvent)) :=
  match getStats rawChild with
  | .error e => .error e
  | .ok refreshed =>
    .ok (forwardEventToChildLocation parentPath reg event path refreshed)

/-- A `WatchedLocation` as the watcher facade's registry sees it, for the
deduplication argument: its path, the listener subscriptions on its hub in
subscription order (hub delivery semantics modelled from the spec, since
the `Subscribable.Controller` implementation lives outside this
repository), and a construction token standing in for object identity. -/
structure Loc where
  path : String
  hubSubs : List Nat
  createdAt : Nat
deriving DecidableEq, Repr

/-- State of one `FileSystemWatcher` instance: the `#locations` registry
map and a counter supplying fresh instance tokens and subscription
handles. -/
structure WatcherState where
  locations : List (String × Loc)
  nextToken : Nat
deriving DecidableEq, Repr

/-- Embeds `FileSystemWatcher._ensureLocation`: return the registered
location for the path if one exists, otherwise construct a fresh instance
and add it to the registry map. -/
def ensureLocation (s : WatcherState) (p : String) : WatcherState × Loc :=
  match alookup s.locations p with
  | some loc => (s, loc)
  | none =>
    let loc : Loc := ⟨p, [], s.nextToken⟩
    (⟨s.locations ++ [(p, loc)], s.nextToken + 1⟩, loc)

/-- Replaces the stored location record for a path (the effect of mutating
the shared `WatchedLocation` object held in the registry map). -/
def updateLoc (l : List (String × Loc)) (p : String) (loc : Loc) :
    List (String × Loc) :=
  l.map (fun e => if e.1 = p then (e.1, loc) else (e.1, e.2))

/-- Embeds `FileSystemWatcher.watch`: ensure a location exists for the
path, subscribe the caller's listener to that location's hub
(`loc.controller.subscribe(listener)` — subscription semantics modelled
from the spec), and return the location together with the subscription
handle. -/
def watch (s : WatcherState) (p : String) : WatcherState × Loc × Nat :=
  let r := ensureLocation s p
  let subId := r.1.nextToken
  let loc := { r.2 with hubSubs := r.2.hubSubs ++ [subId] }
  (⟨updateLoc r.1.locations p loc, subId + 1⟩, loc, subId)

/-- Modelled from the spec: `signal` on a location's hub delivers the event
to every currently-active listener in subscription order (the
`Subscribable.Controller` implementation lives outside this repository).
This returns the listeners an event published on `p`'s hub is delivered
to. -/
def hubDeliveredTo (s : WatcherState) (p : String) : List Nat :=
  match alookup s.locations p with
  | some loc => loc.hubSubs
  | none => []

/-- The child-forwarding bookkeeping of one `WatchedLocation`:
* `hubSubs` — active subscriptions on the location's own hub, in order (the
  forwarding subscription lives here);
* `nextId` — fresh-handle counter;
* `attachedChildren` — the lazily created `#attachedChildren` map, as its
  key list;
* `sdacPending` — the `#childrenAbortController`: `none` when absent,
  `some n` for a live `SharedDemandAbortController` with `n` attached
  signals that have not yet fired (aggregate semantics modelled from the
  spec, since the implementation lives outside this repository);
* `forwardSub` — the forwarding subscription handle captured by the abort
  listener's closure. -/
structure ForwardingState where
  hubSubs : List Nat
  nextId : Nat
  attachedChildren : Option (List String)
  sdacPending : Option Nat
  forwardSub : Option Nat
deriving DecidableEq, Repr

/-- Embeds `WatchedLocation.attachChild`: materialize the children map if
absent; when no shared demand controller exists, subscribe the forwarding
listener to the location's own hub once and create the controller (whose
abort listener is embedded in `childSignalFired`); attach the child's
demand signal to the controller; record the child under its path. -/
def attachChild (st : ForwardingState) (childPath : String) :
    ForwardingState :=
  let children := st.attachedChildren.getD []
  let st1 :=
    match st.sdacPending with
    | some _ => st
    | none =>
      { st with
        hubSubs := st.hubSubs ++ [st.nextId]
        nextId := st.nextId + 1
        forwardSub := some st.nextId
        sdacPending := some 0 }
  let st2 := { st1 with sdacPending := st1.sdacPending.map (fun n => n + 1) }
  { st2 with
    attachedChildren :=
      some (if childPath ∈ children then children else children ++ [childPath]) }

/-- Modelled from the spec: one attached demand signal of the shared
aggregate fires. While other attached signals are still pending the
aggregate merely counts down; when the last pending signal fires, the
aggregate's own abort fires, running the listener installed by
`attachChild`: reset `#childrenAbortController` and `#attachedChildren`
to absent and dispose the forwarding subscription. -/
def childSignalFired (st : ForwardingState) : ForwardingState :=
  match st.sdacPending with
  | none => st
  | some n =>
    if n ≤ 1 then
      { st with
        sdacPending := none
        attachedChildren := none
        hubSubs := st.hubSubs.filter (fun i => st.forwardSub ≠ some i)
        forwardSub := none }
    else { st with sdacPending := some (n - 1) }

/-! Concrete sample values used to exhibit witnesses and counterexamples. -/

/-- A stat snapshot of a regular file. -/
def sampleFileStats : Stats := ⟨true, false, 10, 20, 30⟩

/-- A stat snapshot of a directory. -/
def sampleDirStats : Stats := ⟨false, true, 1, 2, 0⟩

/-- A stat snapshot of a path that exists but is neither a regular file nor
a directory (for example a character device or a socket). -/
def sampleOtherStats : Stats := ⟨false, false, 5, 6, 7⟩

/-- A sample parent directory path. -/
def tmpD : String := "/tmp/d"

/-- A sample child path inside `tmpD`. -/
def tmpDF : String := "/tmp/d/f"

/-- The result of node `Path.join` applied to `tmpD` and the already
absolute `tmpDF`. -/
def tmpDdoubled : String := "/tmp/d/tmp/d/f"

/-- A sample entry name. -/
def aTxt : String := "a.txt"

/-- A sample child path used for attachment scenarios. -/
def childB : String := "/p/b"

/-- A second sample child path used for attachment scenarios. -/
def childC : String := "/p/c"

/-- An online directory location at `tmpD` with an empty listing. -/
def sampleDirLoc : LocState :=
  ⟨"/tmp/d", some ⟨false, true, 1, 2, 0⟩, true, none, true, [], [], [], true⟩

/-- A location whose last known kind is a regular file yet whose native
watch handle field is set. -/
def fileLocWithOpenHandle : LocState :=
  ⟨"/tmp/f", some ⟨true, false, 10, 20, 30⟩, true, none, true, [], [], [], true⟩

/-- A freshly constructed location for a path that has never been
statted. -/
def freshLoc : LocState :=
  ⟨"/tmp/x", none, false, none, true, [], [], [], false⟩

/-- A not-yet-online location whose last known stat snapshot says regular
file. -/
def fileKnownLoc : LocState :=
  ⟨"/tmp/y", some ⟨true, false, 10, 20, 30⟩, false, none, true, [], [], [], false⟩

/-- An online directory location with a non-empty file set. -/
def populatedDirLoc : LocState :=
  ⟨"/tmp/d", some ⟨false, true, 1, 2, 0⟩, true, none, true, ["/tmp/d/old"], [], [], true⟩

/-- A forwarding state with no children, no demand aggregate, and no
subscriptions. -/
def emptyForwarding : ForwardingState := ⟨[], 0, none, none, none⟩

/-! Helper lemmas about the association-list registry. -/

/-- Looking a key up after deleting it from the registry yields nothing. -/
theorem alookup_filter_self {α : Type} (l : List (String × α)) (q : String) :
    alookup (l.filter (fun e => e.1 ≠ q)) q = none := by
  induction l with
  | nil => rfl
  | cons e rest ih =>
    by_cases h : e.1 = q
    · simpa [List.filter_cons, h] using ih
    · simpa [List.filter_cons, h, alookup] using ih

/-- Rewriting the stored record for a path rewrites exactly the binding the
lookup returns. -/
theorem alookup_updateLoc (x : Loc) (l : List (String × Loc)) (p : String) :
    alookup (updateLoc l p x) p = (alookup l p).map (fun _ => x) := by
  induction l with
  | nil => rfl
  | cons e rest ih =>
    obtain ⟨k, v⟩ := e
    simp only [updateLoc, List.map_cons]
    by_cases h : k = p
    · subst h
      rw [if_pos rfl]
      simp [alookup]
    · rw [if_neg h]
      simp only [alookup, h, if_neg, ite_false]
      exact ih

/-- Appending a binding for an absent key makes the lookup find it. -/
theorem alookup_append_of_none (x : Loc) (l : List (String × Loc)) (p : String)
    (h : alookup l p = none) : alookup (l ++ [(p, x)]) p = some x := by
  induction l with
  | nil => simp [alookup]
  | cons e rest ih =>
    obtain ⟨k, v⟩ := e
    by_cases hk : k = p
    · simp [alookup, hk] at h
    · simp [alookup, hk] at h ⊢
      exact ih h

/-! Claim theorems. -/

/-- C5: the stat lookup returns "no stat snapshot" when the OS reports
`ENOENT`, without raising; any other OS error is propagated to the caller;
a successful raw stat is returned as a present snapshot. -/
theorem getStats_error_taxonomy (raw : RawStat) :
    (∀ e : OsError, raw = .error e → e.code = "ENOENT" → getStats raw = .ok none) ∧
    (∀ e : OsError, raw = .error e → e.code ≠ "ENOENT" → getStats raw = .error e) ∧
    (∀ s : Stats, raw = .ok s → getStats raw = .ok (some s)) := by
  refine ⟨?_, ?_, ?_⟩
  · rintro e rfl h
    simp [getStats, h]
  · rintro e rfl h
    simp [getStats, h]
  · rintro s rfl
    rfl

/-- Witness for C5 at concrete inputs: an `ENOENT` failure, an `EACCES`
failure, and a successful stat. -/
theorem getStats_error_taxonomy_witness :
    getStats (.error ⟨"ENOENT"⟩) = .ok none ∧
    getStats (.error ⟨"EACCES"⟩) = .error ⟨"EACCES"⟩ ∧
    getStats (.ok sampleFileStats) = .ok (some sampleFileStats) :=
  ⟨(getStats_error_taxonomy (.error ⟨"ENOENT"⟩)).1 ⟨"ENOENT"⟩ rfl rfl,
   (getStats_error_taxonomy (.error ⟨"EACCES"⟩)).2.1 ⟨"EACCES"⟩ rfl (by decide),
   (getStats_error_taxonomy (.ok sampleFileStats)).2.2 sampleFileStats rfl⟩

/-- C9: a location whose stat snapshot is absent reports `exists = false`,
`isFile = false`, `isDirectory = false`, `dateCreated = 0`,
`dateModified = 0` and `fileSize = 0` through its public view. -/
theorem view_of_absent_stats (st : LocState) (h : st.stats = none) :
    st.existsNow = false ∧ st.isFile = false ∧ st.isDirectory = false ∧
    st.dateCreated = 0 ∧ st.dateModified = 0 ∧ st.fileSize = 0 := by
  simp [LocState.existsNow, LocState.isFile, LocState.isDirectory,
    LocState.dateCreated, LocState.dateModified, LocState.fileSize, h]

/-- Witness for C9 at the freshly constructed location, whose snapshot is
absent. -/
theorem view_of_absent_stats_witness :
    freshLoc.existsNow = false ∧ freshLoc.isFile = false ∧
    freshLoc.isDirectory = false ∧ freshLoc.dateCreated = 0 ∧
    freshLoc.dateModified = 0 ∧ freshLoc.fileSize = 0 :=
  view_of_absent_stats freshLoc rfl

/-- C4: `offline()` closes the native watch handle, aborts the parent
attachment's demand signal when a controller exists (and creates none
otherwise), deletes the location's path from the registry map, clears the
file and subdirectory sets, and releases the internal self-subscription. -/
theorem offline_teardown (reg : Registry) (st : LocState) :
    (offline reg st).2.watcherOpen = false ∧
    (offline reg st).2.watchingParent = st.watchingParent.map (fun _ => true) ∧
    alookup (offline reg st).1 st.path = none ∧
    (offline reg st).2.filePaths = [] ∧
    (offline reg st).2.subdirPaths = [] ∧
    (offline reg st).2.selfSubActive = false :=
  ⟨rfl, rfl, alookup_filter_self reg st.path, rfl, rfl, rfl⟩

/-- C10: `offline()` leaves the entries mapping, the cached stat snapshot,
and every stat-derived view value unchanged. -/
theorem offline_preserves_entries_and_stats (reg : Registry) (st : LocState) :
    (offline reg st).2.entries = st.entries ∧
    (offline reg st).2.stats = st.stats ∧
    (offline reg st).2.existsNow = st.existsNow ∧
    (offline reg st).2.isFile = st.isFile ∧
    (offline reg st).2.isDirectory = st.isDirectory ∧
    (offline reg st).2.dateCreated = st.dateCreated ∧
    (offline reg st).2.dateModified = st.dateModified ∧
    (offline reg st).2.fileSize = st.fileSize :=
  ⟨rfl, rfl, rfl, rfl, rfl, rfl, rfl, rfl⟩

/-- C1: evaluating the forwarding callback at a concrete self-event shows
the child registered for the exact absolute path `tmpDF` is found and its
hub is signalled with the freshly fetched stats for that path, but with the
path `Path.join(parentPath, tmpDF)` — the parent path prepended to the
already absolute event path — rather than the absolute path itself. -/
theorem forward_signals_doubled_path :
    forwardOnSelfEvent tmpD [(tmpDF, 1)] Event.change tmpDF (.ok sampleFileStats)
      = .ok (some (1, (Event.change, tmpDdoubled, some sampleFileStats))) ∧
    tmpDdoubled ≠ tmpDF :=
  ⟨rfl, by decide⟩

/-- C2: the native watch callback ignores a null or empty filename; a
rename-class signal whose target now exists publishes `add` after updating
the entries mapping under the entry name and the file or subdirectory set
under the absolute child path according to the fresh stats' kind; a
rename-class signal whose target no longer exists publishes `delete` after
removing the entry name and the absolute child path from all three
containers; a content-change signal publishes `change` with no listing
mutation. Every published event is `(event, absolute child path, stats or
undefined)` on the location's hub. -/
theorem onNativeWatcherEvent_spec (st : LocState) (ne : WatchEventType)
    (fn : String) (raw : RawStat) (hfn : fn ≠ "") :
    onNativeWatcherEvent st ne none raw = .ok (st, []) ∧
    onNativeWatcherEvent st ne (some "") raw = .ok (st, []) ∧
    (∀ s : Stats, getStats raw = .ok (some s) →
      onNativeWatcherEvent st .rename (some fn) raw =
        .ok ({ st with
                entries := mapSet st.entries fn s
                subdirPaths :=
                  if s.isDirectory then setAdd st.subdirPaths (pathJoin st.path fn)
                  else st.subdirPaths
                filePaths :=
                  if s.isDirectory then st.filePaths
                  else setAdd st.filePaths (pathJoin st.path fn) },
             [(Event.add, pathJoin st.path fn, some s)])) ∧
    (getStats raw = .ok none →
      onNativeWatcherEvent st .rename (some fn) raw =
        .ok ({ st with
                entries := mapDelete st.entries fn
                filePaths := setRemove st.filePaths (pathJoin st.path fn)
                subdirPaths := setRemove st.subdirPaths (pathJoin st.path fn) },
             [(Event.delete, pathJoin st.path fn, none)])) ∧
    (∀ os : Option Stats, getStats raw = .ok os →
      onNativeWatcherEvent st .change (some fn) raw =
        .ok (st, [(Event.change, pathJoin st.path fn, os)])) := by
  refine ⟨rfl, by simp [onNativeWatcherEvent], ?_, ?_, ?_⟩
  · intro s h
    simp [onNativeWatcherEvent, hfn, h]
  · intro h
    simp [onNativeWatcherEvent, hfn, h]
  · intro os h
    simp [onNativeWatcherEvent, hfn, h]

/-- Computation law of `watch` when the registry already holds a location
for the path. -/
theorem watch_eq_of_lookup_some (s : WatcherState) (p : String) (loc : Loc)
    (h : alookup s.locations p = some loc) :
    watch s p =
      (⟨updateLoc s.locations p { loc with hubSubs := loc.hubSubs ++ [s.nextToken] },
        s.nextToken + 1⟩,
       { loc with hubSubs := loc.hubSubs ++ [s.nextToken] }, s.nextToken) := by
  simp [watch, ensureLocation, h]

/-- Computation law of `watch` when the registry holds no location for the
path: a fresh instance is constructed and registered. -/
theorem watch_eq_of_lookup_none (s : WatcherState) (p : String)
    (h : alookup s.locations p = none) :
    watch s p =
      (⟨updateLoc (s.locations ++ [(p, ⟨p, [], s.nextToken⟩)]) p
          ⟨p, [s.nextToken + 1], s.nextToken⟩,
        s.nextToken + 2⟩,
       ⟨p, [s.nextToken + 1], s.nextToken⟩, s.nextToken + 1) := by
  simp [watch, ensureLocation, h]

/-- C3: two `watch()` calls with the same path string on the same watcher
resolve to the same `WatchedLocation` instance (same construction token,
and the registry gains no second entry), and after both calls each caller's
subscription is among the listeners that every event published on that
location's hub is delivered to. -/
theorem watch_same_path_shares_location (s : WatcherState) (p : String) :
    (watch (watch s p).1 p).2.1.createdAt = (watch s p).2.1.createdAt ∧
    (watch s p).2.2 ∈ hubDeliveredTo (watch (watch s p).1 p).1 p ∧
    (watch (watch s p).1 p).2.2 ∈ hubDeliveredTo (watch (watch s p).1 p).1 p ∧
    (watch (watch s p).1 p).1.locations.length = (watch s p).1.locations.length := by
  cases h : alookup s.locations p with
  | some loc =>
    have h1 := watch_eq_of_lookup_some s p loc h
    have h2 : alookup (updateLoc s.locations p
        { loc with hubSubs := loc.hubSubs ++ [s.nextToken] }) p =
        some { loc with hubSubs := loc.hubSubs ++ [s.nextToken] } := by
      rw [alookup_updateLoc, h]
      rfl
    have h3 := watch_eq_of_lookup_some
      (⟨updateLoc s.locations p { loc with hubSubs := loc.hubSubs ++ [s.nextToken] },
        s.nextToken + 1⟩ : WatcherState) p _ h2
    rw [h1]
    rw [h3]
    refine ⟨rfl, ?_, ?_, ?_⟩
    · simp [hubDeliveredTo, alookup_updateLoc, h2]
    · simp [hubDeliveredTo, alookup_updateLoc, h2]
    · simp [updateLoc]
  | none =>
    have h1 := watch_eq_of_lookup_none s p h
    have hx : alookup (s.locations ++ [(p, (⟨p, [], s.nextToken⟩ : Loc))]) p =
        some ⟨p, [], s.nextToken⟩ := alookup_append_of_none _ _ _ h
    have h2 : alookup (updateLoc (s.locations ++ [(p, (⟨p, [], s.nextToken⟩ : Loc))]) p
        (⟨p, [s.nextToken + 1], s.nextToken⟩ : Loc)) p =
        some ⟨p, [s.nextToken + 1], s.nextToken⟩ := by
      rw [alookup_updateLoc, hx]
      rfl
    have h3 := watch_eq_of_lookup_some
      (⟨updateLoc (s.locations ++ [(p, ⟨p, [], s.nextToken⟩)]) p
          ⟨p, [s.nextToken + 1], s.nextToken⟩, s.nextToken + 2⟩ : WatcherState) p _ h2
    rw [h1]
    rw [h3]
    refine ⟨rfl, ?_, ?_, ?_⟩
    · simp [hubDeliveredTo, alookup_updateLoc, h2]
    · simp [hubDeliveredTo, alookup_updateLoc, h2]
    · simp [updateLoc]

/-- Witness for C2: the add case of the callback at a concrete directory
location, entry name, and fresh file stats. -/
theorem onNativeWatcherEvent_spec_witness :
    onNativeWatcherEvent sampleDirLoc .rename (some aTxt) (.ok sampleFileStats) =
      .ok ({ sampleDirLoc with
              entries := mapSet sampleDirLoc.entries aTxt sampleFileStats
              subdirPaths :=
                if sampleFileStats.isDirectory then
                  setAdd sampleDirLoc.subdirPaths (pathJoin sampleDirLoc.path aTxt)
                else sampleDirLoc.subdirPaths
              filePaths :=
                if sampleFileStats.isDirectory then sampleDirLoc.filePaths
                else setAdd sampleDirLoc.filePaths (pathJoin sampleDirLoc.path aTxt) },
           [(Event.add, pathJoin sampleDirLoc.path aTxt, some sampleFileStats)]) :=
  (onNativeWatcherEvent_spec sampleDirLoc .rename aTxt (.ok sampleFileStats)
    (by decide)).2.2.1 sampleFileStats rfl

/-- The classifier step of the listing snapshot touches only the file and
subdirectory sets. -/
theorem classifyEntry_preserves (b : String) (acc : LocState) (e : DirEntry) :
    (classifyEntry b acc e).stats = acc.stats ∧
    (classifyEntry b acc e).watcherOpen = acc.watcherOpen := by
  unfold classifyEntry
  split
  · exact ⟨rfl, rfl⟩
  · split
    · exact ⟨rfl, rfl⟩
    · exact ⟨rfl, rfl⟩

/-- Folding the classifier over a listing touches only the file and
subdirectory sets. -/
theorem foldl_classifyEntry_preserves (b : String) :
    ∀ (l : List DirEntry) (acc : LocState),
    (l.foldl (classifyEntry b) acc).stats = acc.stats ∧
    (l.foldl (classifyEntry b) acc).watcherOpen = acc.watcherOpen := by
  intro l
  induction l with
  | nil => intro acc; exact ⟨rfl, rfl⟩
  | cons e rest ih =>
    intro acc
    have h1 := classifyEntry_preserves b acc e
    have h2 := ih (classifyEntry b acc e)
    simp only [List.foldl_cons]
    exact ⟨h2.1.trans h1.1, h2.2.trans h1.2⟩

/-- A successful listing snapshot changes neither the stat snapshot nor the
native watch handle. -/
theorem initEntries_preserves (st : LocState) (listing : List DirEntry)
    (st2 : LocState) (h : initEntries st listing = .ok st2) :
    st2.stats = st.stats ∧ st2.watcherOpen = st.watcherOpen := by
  unfold initEntries at h
  split at h
  · cases h
    exact ⟨rfl, rfl⟩
  · split at h
    · cases h
    · cases h
      exact foldl_classifyEntry_preserves st.path listing st

/-- A successful watch-handle initialization either skipped a confirmed
file or opened the handle on a location whose handle was closed. -/
theorem initWatcher_cases (st st2 : LocState) (h : initWatcher st = .ok st2) :
    (st.isFile = true ∧ st2 = st) ∨
    (st.isFile = false ∧ st.watcherOpen = false ∧
     st2 = { st with watcherOpen := true }) := by
  unfold initWatcher at h
  split at h
  · cases h
    exact Or.inl ⟨by assumption, rfl⟩
  · split at h
    · cases h
    · cases h
      refine Or.inr ⟨by simpa using (by assumption : ¬st.isFile = true),
        by simpa using (by assumption : ¬st.watcherOpen = true), rfl⟩

/-- Anatomy of a successful `online()`: the fetched snapshot becomes the
location's snapshot, and the native watch handle is opened exactly when
that snapshot does not say regular file. -/
theorem online_cases (st : LocState) (raw : RawStat) (listing : List DirEntry)
    (st2 : LocState) (h : online st raw listing = .ok st2) :
    ∃ stats : Option Stats, getStats raw = .ok stats ∧ st2.stats = stats ∧
      ((LocState.isFile { st with stats := stats } = true ∧
        st2.watcherOpen = st.watcherOpen) ∨
       (LocState.isFile { st with stats := stats } = false ∧
        st.watcherOpen = false ∧ st2.watcherOpen = true)) := by
  unfold online at h
  cases hg : getStats raw with
  | error e =>
    rw [hg] at h
    cases h
  | ok stats =>
    rw [hg] at h
    dsimp only at h
    cases he : initEntries { st with stats := stats } listing with
    | error e2 =>
      rw [he] at h
      cases h
    | ok stM =>
      rw [he] at h
      dsimp only at h
      cases hw : initWatcher stM with
      | error e3 =>
        rw [hw] at h
        cases h
      | ok stW =>
        rw [hw] at h
        dsimp only at h
        have hpres := initEntries_preserves _ _ _ he
        have hst2 : st2.stats = stW.stats ∧ st2.watcherOpen = stW.watcherOpen := by
          split at h <;> (cases h; exact ⟨rfl, rfl⟩)
        have hMfile : stM.isFile = LocState.isFile { st with stats := stats } := by
          unfold LocState.isFile
          rw [hpres.1]
        refine ⟨stats, rfl, ?_, ?_⟩
        · rcases initWatcher_cases _ _ hw with ⟨hf, rfl⟩ | ⟨hf, hwo, rfl⟩
          · exact hst2.1.trans hpres.1
          · exact hst2.1.trans hpres.1
        · rcases initWatcher_cases _ _ hw with ⟨hf, rfl⟩ | ⟨hf, hwo, rfl⟩
          · exact Or.inl ⟨hMfile ▸ hf, hst2.2.trans hpres.2⟩
          · refine Or.inr ⟨hMfile ▸ hf, hpres.2 ▸ hwo, by rw [hst2.2]⟩

/-- C6 counterexample: a location whose last known kind is a regular file
but whose native watch handle field is set. Invoking the native-watch
initialization on it returns without raising any error, contradicting the
claim that it raises a fatal error on every location that already holds an
open handle. -/
theorem initWatcher_silent_on_watched_file :
    fileLocWithOpenHandle.watcherOpen = true ∧
    fileLocWithOpenHandle.isFile = true ∧
    initWatcher fileLocWithOpenHandle = .ok fileLocWithOpenHandle :=
  ⟨rfl, rfl, rfl⟩

/-- C6 amended: invoking the initial listing snapshot on an existing
directory location whose file or subdirectory set is non-empty raises the
fatal invariant error (classifying nothing); invoking the native-watch
initialization on a non-file location that already holds an open handle
raises the fatal invariant error; on a confirmed-file location the
native-watch initialization instead returns unchanged without error. -/
theorem init_fatal_assertions (st : LocState) (listing : List DirEntry) :
    (st.isDirectory = true → st.isFile = false →
      st.filePaths ≠ [] ∨ st.subdirPaths ≠ [] →
      initEntries st listing = .error .entriesNotEmptyBug) ∧
    (st.isFile = false → st.watcherOpen = true →
      initWatcher st = .error .watcherAlreadyOpenBug) ∧
    (st.isFile = true → initWatcher st = .ok st) := by
  refine ⟨?_, ?_, ?_⟩
  · intro hdir hnf hne
    have hex : st.existsNow = true := by
      unfold LocState.isDirectory at hdir
      unfold LocState.existsNow
      cases hst : st.stats with
      | none =>
        rw [hst] at hdir
        cases hdir
      | some s => rfl
    rcases hne with h | h
    · have hlen : 0 < st.filePaths.length := List.length_pos.mpr h
      simp [initEntries, hnf, hex, hlen]
    · have hlen : 0 < st.subdirPaths.length := List.length_pos.mpr h
      simp [initEntries, hnf, hex, hlen]
  · intro h1 h2
    simp [initWatcher, h1, h2]
  · intro h1
    simp [initWatcher, h1]

/-- Witness for C6 (amended) at concrete locations: a populated directory
location, an open-handle directory location, and a confirmed-file
location. -/
theorem init_fatal_assertions_witness :
    initEntries populatedDirLoc [] = .error .entriesNotEmptyBug ∧
    initWatcher sampleDirLoc = .error .watcherAlreadyOpenBug ∧
    initWatcher fileKnownLoc = .ok fileKnownLoc :=
  ⟨(init_fatal_assertions populatedDirLoc []).1 rfl rfl (Or.inl (by decide)),
   (init_fatal_assertions sampleDirLoc []).2.1 rfl rfl,
   (init_fatal_assertions fileKnownLoc []).2.2 rfl⟩

/-- C7 counterexample: bringing online a location whose fresh stats say
"exists but neither file nor directory" opens a native watch handle even
though the last known kind is not directory and the existence is known;
and a location whose pre-online last known kind was regular file also gets
a handle when the refetch says directory. -/
theorem online_opens_handle_beyond_directory_or_unknown :
    ((online freshLoc (.ok sampleOtherStats) []).map LocState.watcherOpen
        = .ok true ∧
     (online freshLoc (.ok sampleOtherStats) []).map LocState.isDirectory
        = .ok false ∧
     (online freshLoc (.ok sampleOtherStats) []).map LocState.existsNow
        = .ok true) ∧
    (fileKnownLoc.isFile = true ∧
     (online fileKnownLoc (.ok sampleDirStats) []).map LocState.watcherOpen
        = .ok true) :=
  ⟨⟨rfl, rfl, rfl⟩, rfl, rfl⟩

/-- C7 amended: when `online()` succeeds on a location with no open handle,
a confirmed-file fresh snapshot leaves the handle closed, and in general
the handle ends up open iff the refreshed snapshot — which becomes the
last known one — does not say regular file (so also for non-file,
non-directory kinds, not only for directories and unknown existence). -/
theorem online_watcher_policy (st : LocState) (raw : RawStat)
    (listing : List DirEntry) (hw : st.watcherOpen = false) :
    (∀ s : Stats, getStats raw = .ok (some s) → s.isFile = true →
      ∀ st2 : LocState, online st raw listing = .ok st2 →
        st2.watcherOpen = false) ∧
    (∀ st2 : LocState, online st raw listing = .ok st2 →
      (st2.watcherOpen = true ↔ st2.isFile = false)) := by
  constructor
  · intro s hg hf st2 h
    rcases online_cases st raw listing st2 h with ⟨stats, hg2, hst, hcase⟩
    rw [hg] at hg2
    cases hg2
    rcases hcase with ⟨_, hwo⟩ | ⟨hfile, _, _⟩
    · exact hwo.trans hw
    · rw [show LocState.isFile { st with stats := some s } = s.isFile from rfl,
        hf] at hfile
      cases hfile
  · intro st2 h
    rcases online_cases st raw listing st2 h with ⟨stats, hg2, hst, hcase⟩
    have hfile2 : st2.isFile = LocState.isFile { st with stats := stats } := by
      unfold LocState.isFile
      rw [hst]
    rcases hcase with ⟨hfile, hwo⟩ | ⟨hfile, _, hwo⟩
    · rw [hwo, hw, hfile2, hfile]
      simp
    · rw [hwo, hfile2, hfile]
      simp

/-- Witness for C7 (amended): a confirmed-file location keeps its handle
closed through `online()`, and the opened-iff-not-file equivalence at a
location brought online on a device-kind path. -/
theorem online_watcher_policy_witness :
    ({ fileKnownLoc with
        stats := some sampleFileStats
        watchingParent := some false
        selfSubActive := true } : LocState).watcherOpen = false ∧
    (({ freshLoc with
         stats := some sampleOtherStats
         watcherOpen := true
         watchingParent := some false
         selfSubActive := true } : LocState).watcherOpen = true ↔
     ({ freshLoc with
         stats := some sampleOtherStats
         watcherOpen := true
         watchingParent := some false
         selfSubActive := true } : LocState).isFile = false) :=
  ⟨(online_watcher_policy fileKnownLoc (.ok sampleFileStats) [] rfl).1
      sampleFileStats rfl rfl
      { fileKnownLoc with
        stats := some sampleFileStats
        watchingParent := some false
        selfSubActive := true } rfl,
   (online_watcher_policy freshLoc (.ok sampleOtherStats) [] rfl).2
      { freshLoc with
        stats := some sampleOtherStats
        watcherOpen := true
        watchingParent := some false
        selfSubActive := true } rfl⟩

/-- C8: on a location with no live demand aggregate, the first `attachChild`
subscribes the forwarding listener to the location's own hub exactly once;
a second attach while the aggregate is alive adds no subscription; when
every attached demand signal has fired, the aggregate fires once, disposing
the forwarding subscription and resetting the aggregate and the children
map; a subsequent attach then creates a fresh forwarding subscription with
a new handle. -/
theorem attachChild_single_forwarding_subscription (st : ForwardingState)
    (c1 c2 c3 : String) (h0 : st.sdacPending = none)
    (hfresh : st.nextId ∉ st.hubSubs) :
    ((attachChild st c1).hubSubs = st.hubSubs ++ [st.nextId] ∧
     (attachChild st c1).forwardSub = some st.nextId) ∧
    ((attachChild (attachChild st c1) c2).hubSubs = (attachChild st c1).hubSubs) ∧
    ((childSignalFired (childSignalFired (attachChild (attachChild st c1) c2))).sdacPending = none ∧
     (childSignalFired (childSignalFired (attachChild (attachChild st c1) c2))).attachedChildren = none ∧
     (childSignalFired (childSignalFired (attachChild (attachChild st c1) c2))).hubSubs = st.hubSubs ∧
     (childSignalFired (childSignalFired (attachChild (attachChild st c1) c2))).forwardSub = none) ∧
    ((attachChild (childSignalFired (childSignalFired (attachChild (attachChild st c1) c2))) c3).hubSubs
        = st.hubSubs ++ [st.nextId + 1] ∧
     st.nextId + 1 ≠ st.nextId) := by
  refine ⟨⟨?_, ?_⟩, ?_, ⟨?_, ?_, ?_, ?_⟩, ?_, ?_⟩
  all_goals
    first
      | omega
      | (simp [attachChild, childSignalFired, h0, List.filter_append] <;>
          (intro a ha he
           exact hfresh (he ▸ ha)))

/-- Witness for C8: the attach/fire scenario run from the empty forwarding
state with two concrete children. -/
theorem attachChild_single_forwarding_subscription_witness :
    (attachChild emptyForwarding childB).hubSubs
        = emptyForwarding.hubSubs ++ [emptyForwarding.nextId] ∧
    (childSignalFired (childSignalFired
        (attachChild (attachChild emptyForwarding childB) childC))).hubSubs
      = emptyForwarding.hubSubs :=
  ⟨(attachChild_single_forwarding_subscription emptyForwarding childB childC
      childB rfl (by decide)).1.1,
   (attachChild_single_forwarding_subscription emptyForwarding childB childC
      childB rfl (by decide)).2.2.1.2.2.1⟩

end FSWatch
